import Mathlib

/-!
Shallow embedding of the `filtering-cpp` streaming-filter library
(authoritative source: `include/filtering/filter.hpp` and
`include/filtering/multistream.hpp`, the later, validated versions).

The C++ classes are templates over a numeric type `T`; the examples
instantiate `T = double`.  We embed `T` as `ℚ`, an exact ordered field, so
that the recurrences of the source are reproduced literally.  Each class
becomes a state structure; each member function becomes a pure function from
state (and input) to state (and output).  Constructors that can throw
(`std::domain_error`, reported as `InvalidParameter` in the design document)
become `Option`-valued makers, `none` being the thrown case.
-/

-- EXPONENTIAL FILTER (include/filtering/filter.hpp, class ExponentialFilter)

/-- State of `ExponentialFilter<T>`: the member variables `_filter_constant`
and `_filtered_data` (the latter default-initialized to 0). -/
structure ExpState where
  filter_constant : ℚ
  filtered_data : ℚ
deriving DecidableEq, Repr

/-- `ExponentialFilter::ExponentialFilter(const T filter_constant)`:
throws `std::domain_error` when `(c <= 0) || (c > 1)`, otherwise stores the
constant; `_filtered_data` starts at 0. -/
def mkExponentialFilter (filter_constant : ℚ) : Option ExpState :=
  if filter_constant ≤ 0 ∨ 1 < filter_constant then none
  else some ⟨filter_constant, 0⟩

/-- `ExponentialFilter::filter(data_in, data_out)`:
`_filtered_data = _filter_constant * data_in + (1 - _filter_constant) * _filtered_data;
 data_out = _filtered_data;`. -/
def expFilter (s : ExpState) (data_in : ℚ) : ExpState × ℚ :=
  let y := s.filter_constant * data_in + (1 - s.filter_constant) * s.filtered_data
  (⟨s.filter_constant, y⟩, y)

/-- `ExponentialFilter::reset()`: `_filtered_data = 0`. -/
def expReset (s : ExpState) : ExpState :=
  ⟨s.filter_constant, 0⟩

/-- `LowPassFilter::LowPassFilter(T RC, T dt)` delegates to the
`ExponentialFilter` constructor with constant `dt / (RC + dt)`; the `filter`
member is inherited unchanged. -/
def mkLowPassFilter (RC dt : ℚ) : Option ExpState :=
  mkExponentialFilter (dt / (RC + dt))

-- HIGH-PASS FILTER (include/filtering/filter.hpp, class HighPassFilter)

/-- State of `HighPassFilter<T>`: the inherited `_filter_constant` and
`_filtered_data` plus the member `T _last_data;`, which has NO initializer in
the source (indeterminate until the first `filter` call). -/
structure HPState where
  filter_constant : ℚ
  filtered_data : ℚ
  last_data : ℚ
deriving DecidableEq, Repr

/-- `HighPassFilter::HighPassFilter(T RC, T dt)` delegates to the
`ExponentialFilter` constructor with constant `RC / (RC + dt)` (same domain
check).  `_last_data` is left uninitialized; the parameter `last_data0`
stands for whatever value that memory happens to hold. -/
def mkHighPassFilter (RC dt last_data0 : ℚ) : Option HPState :=
  if RC / (RC + dt) ≤ 0 ∨ 1 < RC / (RC + dt) then none
  else some ⟨RC / (RC + dt), 0, last_data0⟩

/-- `HighPassFilter::filter(data_in, data_out)`:
`_filtered_data = _filter_constant * _filtered_data + _filter_constant * (data_in - _last_data);
 _last_data = data_in; data_out = _filtered_data;`. -/
def hpFilter (s : HPState) (data_in : ℚ) : HPState × ℚ :=
  let y := s.filter_constant * s.filtered_data
             + s.filter_constant * (data_in - s.last_data)
  (⟨s.filter_constant, y, data_in⟩, y)

/-- `HighPassFilter` inherits `ExponentialFilter::reset()`, which assigns
`_filtered_data = 0` and touches nothing else. -/
def hpReset (s : HPState) : HPState :=
  { s with filtered_data := 0 }

/-- `HighPassFilter` inherits `ExponentialFilter::set_filter_size(size)`,
whose body is `{ return; }`. -/
def hpSetFilterSize (s : HPState) (_size : Int) : HPState :=
  s

-- MOVING AVERAGE FILTER (include/filtering/filter.hpp, MovingAverageFilter)

/-- State of `MovingAverageFilter<T>`: `_data` (the circular buffer),
`_filter_size`, `_filter_sum`, `_filter_ind`. -/
structure MAState where
  filter_size : Int
  data : List ℚ
  filter_sum : ℚ
  filter_ind : Int
deriving DecidableEq, Repr

/-- `MovingAverageFilter::circular_ind(ind)`: `return ind % _filter_size;`.
`_filter_ind` starts at 0 and only increments, so the dividend is always
nonnegative, where C++ truncated `%` and Lean's Euclidean `%` agree. -/
def circular_ind (s : MAState) (ind : Int) : Int :=
  ind % s.filter_size

/-- `MovingAverageFilter::MovingAverageFilter(const int filter_size)`: stores
the size and calls `_data.resize(_filter_size)` — there is NO validity check.
A nonnegative size always succeeds and yields a zero-filled buffer of that
length; a negative size only fails inside `std::vector::resize` (the `int`
converts to an enormous `size_t`, raising `std::length_error`), which is not
the design document's `InvalidParameter` condition. -/
def mkMovingAverageFilter (filter_size : Int) : Option MAState :=
  if filter_size < 0 then none
  else some ⟨filter_size, List.replicate filter_size.toNat 0, 0, 0⟩

/-- `MovingAverageFilter::MovingAverageFilter(const int call_frequency, const T filter_period)`:
delegates through the braced mem-initializer
`MovingAverageFilter{filter_period * call_frequency}`.  List-initialization
rejects narrowing conversions, so for fractional `T` (e.g. `double`) the
`T`-to-`int` conversion is ill-formed — instantiating this constructor is a
compile-time error, not a runtime path.  It is therefore modelled at the
integral instantiations, the only ones where it exists, where the product
`filter_period * call_frequency` is exact integer arithmetic delegated
unchanged. -/
def mkMovingAverageFilterFreq (call_frequency filter_period : Int) :
    Option MAState :=
  mkMovingAverageFilter (filter_period * call_frequency)

/-- `MovingAverageFilter::filter(data_in, data_out)`:
`int ind{circular_ind(_filter_ind++)};
 _filter_sum = _filter_sum - _data[ind] + data_in;
 _data[ind] = data_in;
 data_out = _filter_sum / _filter_size;`. -/
def maFilter (s : MAState) (data_in : ℚ) : MAState × ℚ :=
  let ind := circular_ind s s.filter_ind
  let sum := s.filter_sum - s.data.getD ind.toNat 0 + data_in
  (⟨s.filter_size, s.data.set ind.toNat data_in, sum, s.filter_ind + 1⟩,
    sum / (s.filter_size : ℚ))

/-- `MovingAverageFilter::filter` with its sole undefined-behavior branch made
explicit: `circular_ind` computes `ind % _filter_size`, an integer remainder
whose divisor is `_filter_size`; when that divisor is zero the behavior is
undefined (`none`).  Otherwise the body is exactly `maFilter`. -/
def maFilterChecked (s : MAState) (data_in : ℚ) : Option (MAState × ℚ) :=
  if s.filter_size = 0 then none
  else
    let ind := circular_ind s s.filter_ind
    let sum := s.filter_sum - s.data.getD ind.toNat 0 + data_in
    some (⟨s.filter_size, s.data.set ind.toNat data_in, sum, s.filter_ind + 1⟩,
      sum / (s.filter_size : ℚ))

/-- `MovingAverageFilter::reset()`:
`std::fill(_data.begin(), _data.end(), 0); _filter_ind = 0;` —
note that `_filter_sum` is NOT assigned. -/
def maReset (s : MAState) : MAState :=
  { s with data := List.replicate s.data.length 0, filter_ind := 0 }

/-- `std::vector::resize(n)`: keep the first `n` elements, value-initialize
(zero) any new ones. -/
def vectorResize (l : List ℚ) (n : Nat) : List ℚ :=
  l.take n ++ List.replicate (n - l.length) 0

/-- `MovingAverageFilter::set_filter_size(size)`:
`_filter_size = size; _data.resize(_filter_size); reset();`. -/
def maSetFilterSize (s : MAState) (size : Int) : MAState :=
  maReset { s with filter_size := size, data := vectorResize s.data size.toNat }

-- MULTI-STREAM FILTER (include/filtering/multistream.hpp)

/-- `MultiStreamFilter<T, N>::MultiStreamFilter(Filter<T> const& filter)`:
each of the `N` internal slots becomes `filter.clone()`, a deep copy of the
prototype's full state.  A filter variant is represented by its state type
`σ` together with its `filter` step function; the multi-stream state is the
array of the `N` per-channel states. -/
def mkMultiStreamFilter {σ : Type} (n : Nat) (proto : σ) : Fin n → σ :=
  fun _ => proto

/-- `MultiStreamFilter<T, N>::filter(data_in, data_out)`:
`for (ii = 0; ii < N; ++ii) _filters[ii]->filter(data_in[ii], data_out[ii]);`
— channel `ii` reads only `_filters[ii]` and `data_in[ii]`. -/
def multiStreamFilter {σ : Type} {n : Nat} (step : σ → ℚ → σ × ℚ)
    (filters : Fin n → σ) (data_in : Fin n → ℚ) : (Fin n → σ) × (Fin n → ℚ) :=
  (fun i => (step (filters i) (data_in i)).1,
   fun i => (step (filters i) (data_in i)).2)

-- SEQUENCES OF CALLS

/-- Feed a list of samples, one `filter` call each, collecting the outputs. -/
def filterRun {σ : Type} (step : σ → ℚ → σ × ℚ) (s : σ) : List ℚ → List ℚ
  | [] => []
  | x :: xs => (step s x).2 :: filterRun step (step s x).1 xs

/-- Feed a list of `N`-vectors to a `MultiStreamFilter`, collecting outputs. -/
def multiStreamRun {σ : Type} {n : Nat} (step : σ → ℚ → σ × ℚ)
    (filters : Fin n → σ) : List (Fin n → ℚ) → List (Fin n → ℚ)
  | [] => []
  | x :: xs =>
      (multiStreamFilter step filters x).2 ::
        multiStreamRun step (multiStreamFilter step filters x).1 xs

-- CLAIM THEOREMS

/-- Claim C1: a single `ExponentialFilter::filter` call with input `x` on
state `⟨c, y_prev⟩` returns `c*x + (1-c)*y_prev` and stores that same value
as the new `_filtered_data` (the later, validated recurrence convention). -/
theorem expFilter_step_eq (c y_prev x : ℚ) :
    expFilter ⟨c, y_prev⟩ x =
      (⟨c, c * x + (1 - c) * y_prev⟩, c * x + (1 - c) * y_prev) :=
  rfl

/-- Claim C7: `ExponentialFilter` construction fails (throws the
`InvalidParameter` condition) iff the constant lies outside `(0, 1]`;
in particular `0` and `11/10` fail while `1` succeeds. -/
theorem mkExponentialFilter_domain (c : ℚ) :
    (mkExponentialFilter c = none ↔ ¬(0 < c ∧ c ≤ 1)) ∧
    mkExponentialFilter 0 = none ∧
    mkExponentialFilter (11 / 10) = none ∧
    (mkExponentialFilter 1).isSome := by
  refine ⟨?_, by norm_num [mkExponentialFilter], by norm_num [mkExponentialFilter],
    by norm_num [mkExponentialFilter]⟩
  unfold mkExponentialFilter
  split
  · rename_i h
    simp only [true_iff]
    rintro ⟨h1, h2⟩
    rcases h with h | h
    · linarith
    · linarith
  · rename_i h
    push_neg at h
    simp only [reduceCtorEq, false_iff, not_not]
    exact h

/-- Claim C5: a fresh `LowPassFilter{RC=1, dt=1}` and a fresh
`ExponentialFilter{constant=1/2}` are both successfully constructed and
produce identical output sequences on every input sequence. -/
theorem lowPass_exp_equiv (ins : List ℚ) :
    (mkLowPassFilter 1 1).isSome ∧
    (mkExponentialFilter (1 / 2)).isSome ∧
    (mkLowPassFilter 1 1).map (fun s => filterRun expFilter s ins) =
      (mkExponentialFilter (1 / 2)).map (fun s => filterRun expFilter s ins) := by
  have h : mkLowPassFilter 1 1 = mkExponentialFilter (1 / 2) := by
    unfold mkLowPassFilter
    norm_num
  refine ⟨?_, ?_, by rw [h]⟩
  · rw [h]
    norm_num [mkExponentialFilter]
  · norm_num [mkExponentialFilter]

/-- Per-channel projection of a multi-stream run: channel `i` of the outputs
is exactly the single-filter run of channel `i`'s state on channel `i`'s
component inputs (the loop body at index `ii` touches only slot `ii`). -/
theorem multiStreamRun_proj {σ : Type} {n : Nat} (step : σ → ℚ → σ × ℚ)
    (filters : Fin n → σ) (i : Fin n) (inputs : List (Fin n → ℚ)) :
    (multiStreamRun step filters inputs).map (fun v => v i) =
      filterRun step (filters i) (inputs.map (fun v => v i)) := by
  induction inputs generalizing filters with
  | nil => rfl
  | cons x xs ih =>
      simp only [multiStreamRun, List.map_cons, filterRun, multiStreamFilter]
      exact congrArg _ (ih _)

/-- Claim C3: a `MultiStreamFilter` built by cloning a prototype filter
(state `proto`, step function `step`) produces, on every channel `i` and for
every sequence of vector inputs, exactly the output sequence an independent
single-channel copy of the prototype produces on that channel's component
sequence.  Instantiated at `n = 2`, `apply([a, b])` equals the pair of
outputs of two independent identically-configured filters fed `a` and `b`. -/
theorem multiStream_channel_independent {σ : Type} {n : Nat}
    (step : σ → ℚ → σ × ℚ) (proto : σ) (i : Fin n)
    (inputs : List (Fin n → ℚ)) :
    (multiStreamRun step (mkMultiStreamFilter n proto) inputs).map
        (fun v => v i) =
      filterRun step proto (inputs.map (fun v => v i)) :=
  multiStreamRun_proj step (mkMultiStreamFilter n proto) i inputs

/-- After the previous stored input equals the constant being fed, each
further `HighPassFilter::filter` call multiplies the held output by the
filter constant: the run on `n` copies of `c` is the geometric sequence
`constant^(k+1) * filtered_data`. -/
theorem hpRun_steady (c : ℚ) (n : Nat) :
    ∀ s : HPState, s.last_data = c →
      filterRun hpFilter s (List.replicate n c) =
        (List.range n).map
          (fun k => s.filter_constant ^ (k + 1) * s.filtered_data) := by
  induction n with
  | zero => intro s _; rfl
  | succ n ih =>
      intro s h
      have hstep : hpFilter s c =
          (⟨s.filter_constant, s.filter_constant * s.filtered_data, c⟩,
            s.filter_constant * s.filtered_data) := by
        simp [hpFilter, h]
      rw [List.replicate_succ]
      show (hpFilter s c).2 ::
          filterRun hpFilter (hpFilter s c).1 (List.replicate n c) = _
      rw [hstep]
      rw [ih ⟨s.filter_constant, s.filter_constant * s.filtered_data, c⟩ rfl]
      rw [List.range_succ_eq_map]
      simp only [List.map_cons, List.map_map, Function.comp]
      have heq : (fun k => s.filter_constant ^ (k + 1) *
            (s.filter_constant * s.filtered_data)) =
          (fun k => s.filter_constant ^ (k + 1 + 1) * s.filtered_data) := by
        funext k
        ring
      rw [heq]
      congr 1
      ring

/-- Claim C4 counterexample: the `HighPassFilter{RC=1, dt=1}` (constant 1/2,
residual previous-input value 0) fed the constant sequence `1, 1` outputs
`[1/2, 1/4]` — the second output is `1/4 ≠ 0`, refuting "every output after
the first sample equals 0". -/
theorem highPass_const_not_zero :
    mkHighPassFilter 1 1 0 = some ⟨1 / 2, 0, 0⟩ ∧
    filterRun hpFilter ⟨1 / 2, 0, 0⟩ [1, 1] = [1 / 2, 1 / 4] ∧
    (1 / 4 : ℚ) ≠ 0 := by
  refine ⟨?_, ?_, by norm_num⟩
  · norm_num [mkHighPassFilter]
  · norm_num [filterRun, hpFilter]

/-- Claim C4 (amended): a `HighPassFilter` fed the constant sequence
`c, c, c, ...` produces a first output `(hpFilter s c).2` and thereafter a
geometric decay — every later output is `filter_constant` times its
predecessor (`constant^(k+1)` times the first output), approaching but not
equaling 0 in general. -/
theorem highPass_const_geometric (s : HPState) (c : ℚ) (n : Nat) :
    filterRun hpFilter s (List.replicate (n + 1) c) =
      (hpFilter s c).2 ::
        (List.range n).map
          (fun k => s.filter_constant ^ (k + 1) * (hpFilter s c).2) := by
  rw [List.replicate_succ]
  show (hpFilter s c).2 ::
      filterRun hpFilter (hpFilter s c).1 (List.replicate n c) = _
  congr 1
  exact hpRun_steady c n (hpFilter s c).1 rfl

/-- Claim C2 (code bug): on `MovingAverageFilter(1)`, after `filter(1)`
followed by `reset()`, the member `_filter_sum` still holds `1` while the
window buffer is all zeros (sum `0`): `reset` zeroes `_data` and
`_filter_ind` but forgets `_filter_sum`, breaking the running-sum
invariant. -/
theorem movingAverage_reset_sum_bug :
    mkMovingAverageFilter 1 = some ⟨1, [0], 0, 0⟩ ∧
    (maReset (maFilter ⟨1, [0], 0, 0⟩ 1).1).filter_sum = 1 ∧
    (maReset (maFilter ⟨1, [0], 0, 0⟩ 1).1).data.sum = 0 ∧
    (1 : ℚ) ≠ 0 := by
  refine ⟨by decide, ?_, ?_, by norm_num⟩
  · norm_num [maFilter, maReset, circular_ind, List.getD]
  · norm_num [maFilter, maReset, circular_ind, List.getD]

/-- Claim C6 (amended): `MovingAverageFilter` construction performs no
parameter validation and never raises `InvalidParameter`: every nonnegative
explicit window length — including 0 — succeeds and stores exactly that
length with a zero-filled buffer; the frequency/period constructor (well
formed only at integral `T`, fractional `T` being a compile-time narrowing
error in its braced delegation) delegates the exact integer product
`filter_period * call_frequency` as the window length, equally
unvalidated. -/
theorem movingAverage_construction (sz : Int) (h : 0 ≤ sz) (f p : Int) :
    mkMovingAverageFilter sz =
      some ⟨sz, List.replicate sz.toNat 0, 0, 0⟩ ∧
    mkMovingAverageFilterFreq f p = mkMovingAverageFilter (p * f) := by
  refine ⟨?_, rfl⟩
  unfold mkMovingAverageFilter
  rw [if_neg (not_lt.mpr h)]

/-- Witness for `movingAverage_construction` at `sz = 0`, `f = 5`,
`p = 0`. -/
theorem movingAverage_construction_witness :
    (0 : Int) ≤ 0 ∧
    (mkMovingAverageFilter 0 =
        some ⟨0, List.replicate (0 : Int).toNat 0, 0, 0⟩ ∧
      mkMovingAverageFilterFreq 5 0 = mkMovingAverageFilter (0 * 5)) :=
  ⟨le_refl 0, movingAverage_construction 0 (le_refl 0) 5 0⟩

/-- Claim C6 counterexample: construction with explicit window length 0
succeeds, and the frequency/period pair `(5, 0)` — whose derived window
length `5 * 0 = 0` (its own rounding) is not positive — also succeeds; the
claim demands an `InvalidParameter` failure at both. -/
theorem movingAverage_construction_cex :
    mkMovingAverageFilter 0 = some ⟨0, [], 0, 0⟩ ∧
    mkMovingAverageFilterFreq 5 0 = some ⟨0, [], 0, 0⟩ :=
  ⟨by decide, by decide⟩

/-- Claim C9: `HighPassFilter::reset` (inherited from `ExponentialFilter`)
zeroes only `_filtered_data`, leaving `_last_data` and `_filter_constant`
untouched; `set_filter_size` is the identity; and construction passes the
indeterminate initial memory value of `_last_data` through unchanged while
zeroing `_filtered_data` — so `_last_data` is written only by `filter`. -/
theorem highPass_reset_frame (s : HPState) (RC dt l0 : ℚ) (sz : Int)
    (s0 : HPState) (h : mkHighPassFilter RC dt l0 = some s0) :
    hpReset s = ⟨s.filter_constant, 0, s.last_data⟩ ∧
    hpSetFilterSize s sz = s ∧
    s0.last_data = l0 ∧ s0.filtered_data = 0 := by
  have hs : s0 = ⟨RC / (RC + dt), 0, l0⟩ := by
    unfold mkHighPassFilter at h
    split at h
    · cases h
    · exact (Option.some.inj h).symm
  exact ⟨rfl, rfl, by rw [hs], by rw [hs]⟩

/-- Witness for `highPass_reset_frame` at a concrete state and the concrete
construction `HighPassFilter{RC=1, dt=1}` over residual memory value 5. -/
theorem highPass_reset_frame_witness :
    mkHighPassFilter 1 1 5 = some ⟨1 / 2, 0, 5⟩ ∧
    (hpReset ⟨1 / 2, 3, 7⟩ = ⟨(1 : ℚ) / 2, 0, 7⟩ ∧
      hpSetFilterSize ⟨1 / 2, 3, 7⟩ 4 = ⟨1 / 2, 3, 7⟩ ∧
      (⟨1 / 2, 0, 5⟩ : HPState).last_data = 5 ∧
      (⟨1 / 2, 0, 5⟩ : HPState).filtered_data = 0) :=
  ⟨by norm_num [mkHighPassFilter],
    highPass_reset_frame ⟨1 / 2, 3, 7⟩ 1 1 5 4 ⟨1 / 2, 0, 5⟩
      (by norm_num [mkHighPassFilter])⟩

/-- Claim C10: whenever the window length is at least 1, the divisor used by
`MovingAverageFilter::filter` for both the modulo (`circular_ind`) and the
average (`_filter_sum / _filter_size`) is nonzero, so the checked variant
never takes its undefined-behavior branch; and construction itself accepts a
window length of 0, so `filter_size ≥ 1` is a caller-supplied hypothesis,
not a constructor-established invariant. -/
theorem maFilter_nonzero_divisor (s : MAState) (x : ℚ)
    (h : 1 ≤ s.filter_size) :
    maFilterChecked s x = some (maFilter s x) ∧
    (mkMovingAverageFilter 0).isSome := by
  have hz : s.filter_size ≠ 0 := by omega
  refine ⟨?_, by decide⟩
  unfold maFilterChecked
  rw [if_neg hz]
  rfl

/-- Witness for `maFilter_nonzero_divisor` at the size-1 state with input
5. -/
theorem maFilter_nonzero_divisor_witness :
    (1 : Int) ≤ (⟨1, [0], 0, 0⟩ : MAState).filter_size ∧
    (maFilterChecked ⟨1, [0], 0, 0⟩ 5 = some (maFilter ⟨1, [0], 0, 0⟩ 5) ∧
      (mkMovingAverageFilter 0).isSome) :=
  ⟨by decide, maFilter_nonzero_divisor ⟨1, [0], 0, 0⟩ 5 (by decide)⟩
